import Mathlib

/-!
Verification of the text-area input-reconciliation subsystem
(`src/vs/editor/browser/controller/textAreaHandler.ts`).

Strings are modelled as lists of UTF-16 code units (`List Nat`); event
handlers become pure step functions `EngineState → EngineState × List OutEvent`
over an explicit engine state, with platform capability flags and the host's
copy payload passed as parameters.  The `TextAreaState` (InputSnapshot)
operations live in `textAreaState.ts`, which is outside the provided sources,
so they are modelled from the specification; the handler logic itself is
translated directly from `textAreaHandler.ts`.
-/

namespace TextArea

/-- A string as a list of UTF-16 code units. -/
abbrev Str := List Nat

/-- Modelled from the spec (the helper `strings.isHighSurrogate`, outside the
provided sources): a UTF-16 code unit is a high surrogate when it lies in
the range D800–DBFF. -/
def isHighSurrogate (c : Nat) : Bool :=
  0xD800 ≤ c && c ≤ 0xDBFF

/-- The normalized typing operation `{text, replaceCharCnt}` (`ITypeData`). -/
structure ITypeData where
  text : Str
  replaceCharCnt : Nat
deriving DecidableEq

/-- Length of the longest common prefix of two code-unit lists
(prefix scan from index 0). -/
def commonPrefixLength : Str → Str → Nat
  | a :: as, b :: bs => if a = b then commonPrefixLength as bs + 1 else 0
  | _, _ => 0

/-- Length of the longest common suffix of two code-unit lists
(suffix scan from the end). -/
def commonSuffixLength (a b : Str) : Nat :=
  commonPrefixLength a.reverse b.reverse

/-- Modelled from the spec (`deduceInput` in `textAreaState.ts`, outside the
provided sources): the common-prefix length used by the diff. -/
def dedPrefixLen (oldValue newValue : Str) : Nat :=
  commonPrefixLength oldValue newValue

/-- Modelled from the spec (`deduceInput` in `textAreaState.ts`, outside the
provided sources): the common-suffix length used by the diff; the
prefix/suffix boundary is resolved so the two scans never overlap into the
same characters, i.e. the suffix length is capped so that
`prefix + suffix ≤ min (length old) (length new)`. -/
def dedSuffixLen (oldValue newValue : Str) : Nat :=
  min (commonSuffixLength oldValue newValue)
    (min oldValue.length newValue.length - dedPrefixLen oldValue newValue)

/-- Modelled from the spec (`deduceInput` in `textAreaState.ts`, outside the
provided sources): the minimal edit between the previous snapshot value and
the freshly read widget value, with
`replaceCharCnt = oldLength - commonPrefix - commonSuffix` and
`insertedText = newValue[commonPrefix .. newLength - commonSuffix]`. -/
def deduceInput (oldValue newValue : Str) : ITypeData :=
  let pl := dedPrefixLen oldValue newValue
  let sl := dedSuffixLen oldValue newValue
  { text := (newValue.drop pl).take (newValue.length - sl - pl),
    replaceCharCnt := oldValue.length - pl - sl }

/-- Platform capability flags (`browser.isEdgeOrIE`, `browser.isChrome`,
the module-level `isChromev55_v56` check, `browser.isIPad`). -/
structure Platform where
  isEdgeOrIE : Bool
  isChrome : Bool
  isChromev55v56 : Bool
  isIPad : Bool
deriving DecidableEq

/-- The editor `Range` held as the primary selection. -/
structure Range where
  startLineNumber : Nat
  startColumn : Nat
  endLineNumber : Nat
  endColumn : Nat
deriving DecidableEq

/-- The native widget (`TextAreaWrapper`): raw value and selection offsets. -/
structure Widget where
  value : Str
  selectionStart : Nat
  selectionEnd : Nat
deriving DecidableEq

/-- The snapshot of the widget (`TextAreaState` / InputSnapshot, defined in
`textAreaState.ts`, outside the provided sources; modelled from the spec):
an immutable value + selection record. -/
structure TextAreaState where
  value : Str
  selectionStart : Nat
  selectionEnd : Nat
deriving DecidableEq

/-- Modelled from the spec (`TextAreaState.toEmpty`): the empty snapshot. -/
def TextAreaState.toEmpty : TextAreaState :=
  { value := [], selectionStart := 0, selectionEnd := 0 }

/-- Modelled from the spec (`TextAreaState.fromText`): a snapshot holding the
given text with the selection collapsed at its end. -/
def TextAreaState.fromText (d : Str) : TextAreaState :=
  { value := d, selectionStart := d.length, selectionEnd := d.length }

/-- Modelled from the spec (`TextAreaState.fromTextArea`): a snapshot read from
the widget's current value and selection. -/
def TextAreaState.fromTextArea (w : Widget) : TextAreaState :=
  { value := w.value, selectionStart := w.selectionStart, selectionEnd := w.selectionEnd }

/-- Modelled from the spec (`TextAreaState.resetSelection`): collapse the
snapshot's selection (used before writing to an unfocused widget). -/
def TextAreaState.resetSelection (t : TextAreaState) : TextAreaState :=
  { t with selectionStart := t.value.length, selectionEnd := t.value.length }

/-- Modelled from the spec (`TextAreaState.applyToTextArea`): write the
snapshot's value to the widget, and its selection too when `select` is set. -/
def TextAreaState.applyToTextArea (t : TextAreaState) (w : Widget) (select : Bool) : Widget :=
  let w1 := { w with value := t.value }
  if select then
    { w1 with selectionStart := t.selectionStart, selectionEnd := t.selectionEnd }
  else w1

/-- Modelled from the spec (`TextAreaState.updateComposition`): during
composition, the snapshot is reconciled against the composed text; the
resulting operation replaces the previously composed text (the previous
snapshot's value) with the new composed text. -/
def updateComposition (prev cur : TextAreaState) : ITypeData :=
  { text := cur.value, replaceCharCnt := prev.value.length }

/-- `ReadFromTextArea`: how the next raw `input` event is to be classified. -/
inductive ReadFromTextArea where
  | type
  | paste
deriving DecidableEq

/-- A clipboard event as seen by `ClipboardEventUtils`: the structured
per-event clipboard payload (`e.clipboardData`, its `text/plain` content when
present) and the legacy whole-document clipboard (`window.clipboardData`). -/
structure ClipEvent where
  clipboardData : Option Str
  windowClipboardData : Option Str
deriving DecidableEq

/-- A clipboard write performed by `ClipboardEventUtils.setTextData`: either a
structured write (plain text plus optional rich text) or a legacy
whole-document write (plain text only). -/
inductive ClipWrite where
  | structured (plain : Str) (html : Option Str)
  | legacy (plain : Str)
deriving DecidableEq

/-- The plain-text part of a clipboard write. -/
def ClipWrite.plain : ClipWrite → Str
  | .structured t _ => t
  | .legacy t => t

/-- Error raised by `ClipboardEventUtils` when no clipboard capability exists. -/
inductive ClipboardError where
  | unavailable
deriving DecidableEq

/-- `ClipboardEventUtils.canUseTextData`: some clipboard capability exists. -/
def canUseTextData (e : ClipEvent) : Bool :=
  e.clipboardData.isSome || e.windowClipboardData.isSome

/-- `ClipboardEventUtils.getTextData`: prefer the structured event clipboard
data, fall back to the legacy whole-document clipboard, and fail when neither
capability exists. -/
def getTextData (e : ClipEvent) : Except ClipboardError Str :=
  match e.clipboardData with
  | some t => .ok t
  | none =>
    match e.windowClipboardData with
    | some t => .ok t
    | none => .error .unavailable

/-- `ClipboardEventUtils.setTextData`: write structured plain text plus the
optional rich-text payload when the event clipboard exists, fall back to a
legacy plain-text write, and fail when neither capability exists. -/
def setTextData (e : ClipEvent) (text : Str) (richText : Option Str) :
    Except ClipboardError ClipWrite :=
  match e.clipboardData with
  | some _ => .ok (.structured text richText)
  | none =>
    match e.windowClipboardData with
    | some _ => .ok (.legacy text)
    | none => .error .unavailable

/-- The host's copy payload (`getPlainTextToCopy` / `getHTMLToCopy`). -/
structure HostCopy where
  plainText : Str
  htmlText : Str
deriving DecidableEq

/-- The normalized events emitted by the handler. -/
inductive OutEvent where
  | onType (t : ITypeData)
  | onPaste (text : Str)
  | onCut
  | onCompositionStart
  | onCompositionUpdate (data : Str) (locale : Option String)
  | onCompositionEnd
  | clipboardWrite (w : ClipWrite)
deriving DecidableEq

/-- The mutable state of `TextAreaHandler`: the primary selection, the focus
flag, the pending run-once cut scheduler, the committed snapshot, the
composition flag, the cached composition locale (module-level variable
`compositionLocale`), the pending command, and the widget itself. -/
structure EngineState where
  selection : Range
  hasFocus : Bool
  cutScheduled : Bool
  textAreaState : TextAreaState
  isDoingComposition : Bool
  compositionLocale : Option String
  nextCommand : ReadFromTextArea
  widget : Widget
deriving DecidableEq

/-- `TextAreaHandler.setTextAreaState`: reset the snapshot's selection when
unfocused, apply it to the widget (selecting only when focused or forced),
and commit it. -/
def setTextAreaState (s : EngineState) (t : TextAreaState) (forceFocus : Bool) :
    EngineState :=
  let t1 := if s.hasFocus then t else t.resetSelection
  { s with
    widget := t1.applyToTextArea s.widget (s.hasFocus || forceFocus),
    textAreaState := t1 }

/-- `TextAreaHandler._writePlaceholderAndSelectTextArea`: never touch the
widget while composing; otherwise reseed it from the editor selection's
projection (or write an empty value on the iPad). -/
def writePlaceholderAndSelectTextArea (p : Platform) (proj : Range → TextAreaState)
    (s : EngineState) (forceFocus : Bool) : EngineState :=
  if s.isDoingComposition then s
  else if p.isIPad then setTextAreaState s TextAreaState.toEmpty forceFocus
  else setTextAreaState s (proj s.selection) forceFocus

/-- `TextAreaHandler.setCursorSelections`: store the primary selection, then
reseed the widget (a no-op while composing). -/
def setCursorSelections (p : Platform) (proj : Range → TextAreaState)
    (s : EngineState) (primary : Range) : EngineState :=
  writePlaceholderAndSelectTextArea p proj { s with selection := primary } false

/-- `TextAreaHandler.setHasFocus`: no-op when unchanged; reseed on focus gain. -/
def setHasFocus (p : Platform) (proj : Range → TextAreaState)
    (s : EngineState) (isFocused : Bool) : EngineState :=
  if s.hasFocus = isFocused then s
  else
    let s1 := { s with hasFocus := isFocused }
    if s1.hasFocus then writePlaceholderAndSelectTextArea p proj s1 false else s1

/-- `TextAreaHandler.executePaste`: fire `onPaste` unless the text is empty. -/
def executePaste (txt : Str) : List OutEvent :=
  if txt = [] then [] else [.onPaste txt]

/-- The `compositionstart` listener: ignore the event while already composing;
otherwise enter composition, reset the snapshot and the widget to empty unless
the platform is Edge/IE (where rewriting the value during this event cancels
the whole composition), and fire `onCompositionStart`. -/
def compositionStartStep (p : Platform) (s : EngineState) :
    EngineState × List OutEvent :=
  if s.isDoingComposition then (s, [])
  else
    let s1 := { s with isDoingComposition := true }
    let s2 := if ¬ p.isEdgeOrIE then setTextAreaState s1 TextAreaState.toEmpty false else s1
    (s2, [.onCompositionStart])

/-- The `compositionupdate` listener: on Chrome v55/v56 only cache the locale
(the textarea value is still obsolete); on Edge/IE with a Japanese locale read
the widget and fire the deduced diff; otherwise reconcile against the event's
composed text via `updateComposition`.  In both firing branches emit `onType`
followed by `onCompositionUpdate`. -/
def compositionUpdateStep (p : Platform) (data : Str) (locale : String)
    (s : EngineState) : EngineState × List OutEvent :=
  if p.isChromev55v56 then
    ({ s with compositionLocale := some locale }, [])
  else if p.isEdgeOrIE && locale = "ja" then
    let st := TextAreaState.fromTextArea s.widget
    let t := deduceInput s.textAreaState.value st.value
    ({ s with textAreaState := st }, [.onType t, .onCompositionUpdate data (some locale)])
  else
    let st := TextAreaState.fromText data
    let t := updateComposition s.textAreaState st
    ({ s with textAreaState := st }, [.onType t, .onCompositionUpdate data (some locale)])

/-- The `compositionend` listener: reconcile (against a fresh widget read on
Edge/IE with a Japanese locale, against the event's composed text otherwise)
and fire `onType` unconditionally, re-read the widget on Edge/IE/Chrome, then
fire `onCompositionEnd` and leave composition only when actually composing. -/
def compositionEndStep (p : Platform) (data : Str) (locale : String)
    (s : EngineState) : EngineState × List OutEvent :=
  let r :=
    if p.isEdgeOrIE && locale = "ja" then
      let st := TextAreaState.fromTextArea s.widget
      ({ s with textAreaState := st }, deduceInput s.textAreaState.value st.value)
    else
      let st := TextAreaState.fromText data
      ({ s with textAreaState := st }, updateComposition s.textAreaState st)
  let s1 := r.1
  let evs : List OutEvent := [.onType r.2]
  let s2 := if p.isEdgeOrIE || p.isChrome then
      { s1 with textAreaState := TextAreaState.fromTextArea s1.widget }
    else s1
  if ¬ s2.isDoingComposition then (s2, evs)
  else ({ s2 with isDoingComposition := false }, evs ++ [.onCompositionEnd])

/-- The `input` listener: while composing, only the Chrome v55/v56 workaround
fires (reconciling against a fresh widget read); otherwise deduce the diff
against the committed snapshot, drop a lone high-surrogate insert without
committing, and else commit the snapshot and emit `onType` (non-empty text)
or perform the pending paste and reset the pending command. -/
def inputStep (p : Platform) (s : EngineState) : EngineState × List OutEvent :=
  if s.isDoingComposition then
    if p.isChromev55v56 then
      let text := s.widget.value
      let st := TextAreaState.fromText text
      let t := updateComposition s.textAreaState st
      ({ s with textAreaState := st },
        [.onType t, .onCompositionUpdate text s.compositionLocale])
    else (s, [])
  else
    let temp := TextAreaState.fromTextArea s.widget
    let t := deduceInput s.textAreaState.value temp.value
    if t.replaceCharCnt = 0 && t.text.length = 1 && isHighSurrogate (t.text.headD 0) then
      (s, [])
    else
      let s1 := { s with textAreaState := temp }
      if s1.nextCommand = ReadFromTextArea.type then
        if t.text ≠ [] then (s1, [.onType t]) else (s1, [])
      else
        ({ s1 with nextCommand := ReadFromTextArea.type }, executePaste t.text)

/-- The rich-text gate in `_ensureClipboardGetsEditorSelection`: the HTML
payload accompanies the plain text only off Edge/IE and only when the plain
text is shorter than 65536 code units or the
`CopyOptions.forceCopyWithSyntaxHighlighting` flag is set. -/
def copyHTMLPayload (p : Platform) (host : HostCopy)
    (forceCopyWithSyntaxHighlighting : Bool) : Option Str :=
  if ¬ p.isEdgeOrIE && (host.plainText.length < 65536 || forceCopyWithSyntaxHighlighting)
  then some host.htmlText
  else none

/-- `TextAreaHandler._ensureClipboardGetsEditorSelection`: with clipboard
capability, write the host's plain text plus the gated HTML payload; without
it, put the plain text into the widget so the native default action copies it. -/
def ensureClipboardGetsEditorSelection (p : Platform) (host : HostCopy)
    (forceCopyWithSyntaxHighlighting : Bool) (e : ClipEvent) (s : EngineState) :
    EngineState × List OutEvent :=
  let whatToCopy := host.plainText
  if canUseTextData e then
    match setTextData e whatToCopy (copyHTMLPayload p host forceCopyWithSyntaxHighlighting) with
    | .ok w => (s, [.clipboardWrite w])
    | .error _ => (s, [])
  else
    (setTextAreaState s (TextAreaState.fromText whatToCopy) false, [])

/-- The `cut` listener: populate the clipboard synchronously, then schedule the
deferred run-once `onCut` emission (`_asyncTriggerCut.schedule()`). -/
def cutStep (p : Platform) (host : HostCopy) (forceCopyWithSyntaxHighlighting : Bool)
    (e : ClipEvent) (s : EngineState) : EngineState × List OutEvent :=
  let r := ensureClipboardGetsEditorSelection p host forceCopyWithSyntaxHighlighting e s
  ({ r.1 with cutScheduled := true }, r.2)

/-- The `copy` listener: populate the clipboard synchronously; nothing else. -/
def copyStep (p : Platform) (host : HostCopy) (forceCopyWithSyntaxHighlighting : Bool)
    (e : ClipEvent) (s : EngineState) : EngineState × List OutEvent :=
  ensureClipboardGetsEditorSelection p host forceCopyWithSyntaxHighlighting e s

/-- The run-once cut scheduler firing (`RunOnceScheduler` callback): emit
`onCut` once when a cut is pending, and clear the pending flag. -/
def cutSchedulerFire (s : EngineState) : EngineState × List OutEvent :=
  if s.cutScheduled then ({ s with cutScheduled := false }, [.onCut]) else (s, [])

/-- The `paste` listener: with clipboard capability, paste the read text
synchronously (`executePaste` ignores empty text); otherwise clear the widget
when it has a non-empty selection and defer to the next `input` event by
setting the pending command to `paste`. -/
def pasteStep (e : ClipEvent) (s : EngineState) : EngineState × List OutEvent :=
  if canUseTextData e then
    match getTextData e with
    | .ok t => (s, executePaste t)
    | .error _ => (s, [])
  else
    let s1 := if s.widget.selectionStart ≠ s.widget.selectionEnd then
        setTextAreaState s TextAreaState.toEmpty false
      else s
    ({ s1 with nextCommand := ReadFromTextArea.paste }, [])

/-- Two cut events followed by the scheduler firing: the composite run used to
state the coalescing property of the run-once cut scheduler. -/
def cutCutFire (p : Platform) (host : HostCopy) (forceCopyWithSyntaxHighlighting : Bool)
    (e : ClipEvent) (s : EngineState) : EngineState × List OutEvent :=
  let r1 := cutStep p host forceCopyWithSyntaxHighlighting e s
  let r2 := cutStep p host forceCopyWithSyntaxHighlighting e r1.1
  let r3 := cutSchedulerFire r2.1
  (r3.1, r1.2 ++ r2.2 ++ r3.2)

/-- A platform with every capability flag cleared. -/
def plainPlatform : Platform :=
  { isEdgeOrIE := false, isChrome := false, isChromev55v56 := false, isIPad := false }

/-- The Edge/IE platform flags. -/
def edgePlatform : Platform :=
  { isEdgeOrIE := true, isChrome := false, isChromev55v56 := false, isIPad := false }

/-- The selection the handler starts from (`new Range(1, 1, 1, 1)`). -/
def baseRange : Range :=
  { startLineNumber := 1, startColumn := 1, endLineNumber := 1, endColumn := 1 }

/-- An empty widget. -/
def baseWidget : Widget :=
  { value := [], selectionStart := 0, selectionEnd := 0 }

/-- The engine state right after construction: default selection, unfocused,
no pending cut, empty snapshot, not composing, pending command `type`. -/
def baseState : EngineState :=
  { selection := baseRange
    hasFocus := false
    cutScheduled := false
    textAreaState := TextAreaState.toEmpty
    isDoingComposition := false
    compositionLocale := none
    nextCommand := ReadFromTextArea.type
    widget := baseWidget }

theorem commonPrefixLength_le_left (a b : Str) :
    commonPrefixLength a b ≤ a.length := by
  induction a generalizing b with
  | nil => cases b <;> simp [commonPrefixLength]
  | cons x xs ih =>
    cases b with
    | nil => simp [commonPrefixLength]
    | cons y ys =>
      by_cases h : x = y
      · subst h
        simpa [commonPrefixLength] using ih ys
      · simp [commonPrefixLength, h]

theorem commonPrefixLength_le_right (a b : Str) :
    commonPrefixLength a b ≤ b.length := by
  induction a generalizing b with
  | nil => cases b <;> simp [commonPrefixLength]
  | cons x xs ih =>
    cases b with
    | nil => simp [commonPrefixLength]
    | cons y ys =>
      by_cases h : x = y
      · subst h
        simpa [commonPrefixLength] using ih ys
      · simp [commonPrefixLength, h]

theorem take_commonPrefixLength (a b : Str) :
    a.take (commonPrefixLength a b) = b.take (commonPrefixLength a b) := by
  induction a generalizing b with
  | nil => cases b <;> simp [commonPrefixLength]
  | cons x xs ih =>
    cases b with
    | nil => simp [commonPrefixLength]
    | cons y ys =>
      by_cases h : x = y
      · subst h
        simp [commonPrefixLength, List.take_succ_cons, ih ys]
      · simp [commonPrefixLength, h]

theorem take_eq_of_le_commonPrefixLength (a b : Str) (n : Nat)
    (h : n ≤ commonPrefixLength a b) : a.take n = b.take n := by
  have h1 := take_commonPrefixLength a b
  calc a.take n = (a.take (commonPrefixLength a b)).take n := by
        rw [List.take_take, Nat.min_eq_left h]
    _ = (b.take (commonPrefixLength a b)).take n := by rw [h1]
    _ = b.take n := by rw [List.take_take, Nat.min_eq_left h]

theorem drop_eq_of_le_commonSuffixLength (a b : Str) (n : Nat)
    (h : n ≤ commonSuffixLength a b) :
    a.drop (a.length - n) = b.drop (b.length - n) := by
  have h1 : a.reverse.take n = b.reverse.take n :=
    take_eq_of_le_commonPrefixLength a.reverse b.reverse n h
  have h2 := List.rtake_eq_reverse_take_reverse (l := a) (n := n)
  have h3 := List.rtake_eq_reverse_take_reverse (l := b) (n := n)
  rw [List.rtake] at h2 h3
  rw [h2, h3, h1]

theorem dedPrefixLen_add_dedSuffixLen_le (oldValue newValue : Str) :
    dedPrefixLen oldValue newValue + dedSuffixLen oldValue newValue ≤
      min oldValue.length newValue.length := by
  have h1 : dedPrefixLen oldValue newValue ≤ min oldValue.length newValue.length :=
    le_min (commonPrefixLength_le_left _ _) (commonPrefixLength_le_right _ _)
  have h2 : dedSuffixLen oldValue newValue ≤
      min oldValue.length newValue.length - dedPrefixLen oldValue newValue :=
    min_le_right _ _
  omega

/-- Claim C1 (as stated): replacing the last `replaceCharCnt` characters of
`oldValue` with the deduced `insertedText` yields `newValue`.  This fails at
`oldValue = "abc"`, `newValue = "axc"` (code units `[97,98,99]` and
`[97,120,99]`): the diff is `{text = "x", replaceCharCnt = 1}`, and replacing
the last character of `"abc"` with `"x"` gives `"abx"`, not `"axc"`. -/
theorem C1_counterexample :
    (deduceInput [97, 98, 99] [97, 120, 99]).replaceCharCnt = 1 ∧
    (deduceInput [97, 98, 99] [97, 120, 99]).text = [120] ∧
    ¬ (([97, 98, 99] : Str).rdrop (deduceInput [97, 98, 99] [97, 120, 99]).replaceCharCnt ++
        (deduceInput [97, 98, 99] [97, 120, 99]).text = [97, 120, 99]) := by
  refine ⟨by decide, by decide, by simp [List.rdrop]; decide⟩

/-- Claim C1 (amended): for every pair `(oldValue, newValue)`, `deduceInput`
returns `insertedText` and `replaceCharCnt` such that replacing the
`replaceCharCnt` characters of `oldValue` that immediately precede its trailing
common-suffix characters (rather than the very last characters of `oldValue`)
with `insertedText` yields exactly `newValue`, and the sum of the common-prefix
and common-suffix lengths it uses never exceeds
`min (length oldValue) (length newValue)`. -/
theorem C1_deduceInput_reassembly (oldValue newValue : Str) :
    oldValue.take (dedPrefixLen oldValue newValue) ++
      (deduceInput oldValue newValue).text ++
      oldValue.drop (oldValue.length - dedSuffixLen oldValue newValue) = newValue ∧
    dedPrefixLen oldValue newValue + dedSuffixLen oldValue newValue ≤
      min oldValue.length newValue.length ∧
    (deduceInput oldValue newValue).replaceCharCnt =
      oldValue.length - dedPrefixLen oldValue newValue - dedSuffixLen oldValue newValue := by
  set pl := dedPrefixLen oldValue newValue with hpl
  set sl := dedSuffixLen oldValue newValue with hsl
  have hsum : pl + sl ≤ min oldValue.length newValue.length :=
    dedPrefixLen_add_dedSuffixLen_le oldValue newValue
  have hplnew : pl ≤ newValue.length - sl := by
    have := min_le_right oldValue.length newValue.length
    omega
  have htake : oldValue.take pl = newValue.take pl :=
    take_eq_of_le_commonPrefixLength oldValue newValue pl (le_refl _)
  have hdropeq : oldValue.drop (oldValue.length - sl) =
      newValue.drop (newValue.length - sl) :=
    drop_eq_of_le_commonSuffixLength oldValue newValue sl (min_le_left _ _)
  refine ⟨?_, hsum, rfl⟩
  have htext : (deduceInput oldValue newValue).text =
      (newValue.drop pl).take (newValue.length - sl - pl) := rfl
  rw [htext, htake, hdropeq]
  have hdd : newValue.drop (newValue.length - sl) =
      (newValue.drop pl).drop (newValue.length - sl - pl) := by
    rw [List.drop_drop]
    congr 1
    omega
  rw [hdd, List.append_assoc, List.take_append_drop, List.take_append_drop]

/-- Claim C2: while not composing, if the deduced diff has
`replaceCharCnt = 0` and its inserted text is a single UTF-16 code unit that
is a high surrogate, the raw input event is ignored entirely: no `onType` and
no `onPaste` is emitted and the engine state — in particular the committed
snapshot `_textAreaState` — is left unchanged, so the next event diffs against
the original prior snapshot. -/
theorem C2_lone_high_surrogate_ignored (p : Platform) (s : EngineState)
    (hc : s.isDoingComposition = false)
    (h0 : (deduceInput s.textAreaState.value s.widget.value).replaceCharCnt = 0)
    (h1 : (deduceInput s.textAreaState.value s.widget.value).text.length = 1)
    (h2 : isHighSurrogate
      ((deduceInput s.textAreaState.value s.widget.value).text.headD 0) = true) :
    inputStep p s = (s, []) := by
  obtain ⟨c, hc1⟩ := List.length_eq_one.mp h1
  rw [hc1] at h2
  simp only [List.headD_cons] at h2
  unfold inputStep
  simp [hc, TextAreaState.fromTextArea, h0, hc1, h2]

theorem C2_witness :
    ({ baseState with widget := { baseWidget with value := [0xD835] } } :
        EngineState).isDoingComposition = false ∧
    inputStep plainPlatform { baseState with widget := { baseWidget with value := [0xD835] } } =
      ({ baseState with widget := { baseWidget with value := [0xD835] } }, []) := by
  refine ⟨by decide, ?_⟩
  exact C2_lone_high_surrogate_ignored plainPlatform
    { baseState with widget := { baseWidget with value := [0xD835] } }
    (by decide) (by decide) (by decide) (by decide)

/-- Claim C5: while composing, `setCursorSelections` never writes to the
widget: it only updates the stored primary selection, and every other part of
the engine state — in particular the widget's value and selection set during
composition — is left unchanged. -/
theorem C5_reseed_noop_while_composing (p : Platform) (proj : Range → TextAreaState)
    (s : EngineState) (primary : Range) (h : s.isDoingComposition = true) :
    setCursorSelections p proj s primary = { s with selection := primary } := by
  unfold setCursorSelections writePlaceholderAndSelectTextArea
  simp [h]

theorem C5_witness :
    setCursorSelections plainPlatform (fun _ => TextAreaState.toEmpty)
        { baseState with
          isDoingComposition := true
          widget := { baseWidget with value := [119] } }
        { startLineNumber := 2, startColumn := 3, endLineNumber := 4, endColumn := 5 } =
      { baseState with
        isDoingComposition := true
        widget := { baseWidget with value := [119] }
        selection := { startLineNumber := 2, startColumn := 3, endLineNumber := 4, endColumn := 5 } } :=
  C5_reseed_noop_while_composing plainPlatform (fun _ => TextAreaState.toEmpty)
    { baseState with
      isDoingComposition := true
      widget := { baseWidget with value := [119] } }
    { startLineNumber := 2, startColumn := 3, endLineNumber := 4, endColumn := 5 }
    (by decide)

/-- Claim C9: a `compositionstart` event that arrives while already composing
is ignored entirely: the state (snapshot, widget, composing flag) is unchanged
and no event — in particular no second `onCompositionStart` — is emitted. -/
theorem C9_composition_start_while_composing_ignored (p : Platform) (s : EngineState)
    (h : s.isDoingComposition = true) :
    compositionStartStep p s = (s, []) := by
  unfold compositionStartStep
  simp [h]

theorem C9_witness :
    compositionStartStep plainPlatform { baseState with isDoingComposition := true } =
      ({ baseState with isDoingComposition := true }, []) :=
  C9_composition_start_while_composing_ignored plainPlatform
    { baseState with isDoingComposition := true } (by decide)

/-- Claim C6: a `compositionstart` event received while Idle transitions the
engine to Composing and emits `onCompositionStart` exactly once; the snapshot
and the widget are reset to empty unless the platform is Edge/IE (which would
destructively cancel the composition when the value is rewritten during this
event), in which case both keep their prior content. -/
theorem C6_composition_start_from_idle (p : Platform) (s : EngineState)
    (h : s.isDoingComposition = false) :
    (compositionStartStep p s).2 = [OutEvent.onCompositionStart] ∧
    (compositionStartStep p s).1.isDoingComposition = true ∧
    (p.isEdgeOrIE = false →
      (compositionStartStep p s).1.textAreaState.value = [] ∧
      (compositionStartStep p s).1.widget.value = []) ∧
    (p.isEdgeOrIE = true →
      (compositionStartStep p s).1.textAreaState = s.textAreaState ∧
      (compositionStartStep p s).1.widget = s.widget) := by
  unfold compositionStartStep
  cases hp : p.isEdgeOrIE <;> cases hf : s.hasFocus <;>
    simp [h, hp, hf, setTextAreaState, TextAreaState.toEmpty, TextAreaState.resetSelection,
      TextAreaState.applyToTextArea]

theorem C6_witness :
    (compositionStartStep plainPlatform baseState).2 = [OutEvent.onCompositionStart] ∧
    (compositionStartStep plainPlatform baseState).1.isDoingComposition = true ∧
    (plainPlatform.isEdgeOrIE = false →
      (compositionStartStep plainPlatform baseState).1.textAreaState.value = [] ∧
      (compositionStartStep plainPlatform baseState).1.widget.value = []) ∧
    (plainPlatform.isEdgeOrIE = true →
      (compositionStartStep plainPlatform baseState).1.textAreaState = baseState.textAreaState ∧
      (compositionStartStep plainPlatform baseState).1.widget = baseState.widget) :=
  C6_composition_start_from_idle plainPlatform baseState (by decide)

/-- Claim C10: a `compositionend` event that arrives while the engine is Idle
still performs the final reconciliation and emits exactly one `onType` for the
resulting diff, but emits no `onCompositionEnd` (that emission is guarded by
the composing flag) and leaves the state Idle. -/
theorem C10_composition_end_while_idle (p : Platform) (data : Str) (locale : String)
    (s : EngineState) (h : s.isDoingComposition = false) :
    (∃ t, (compositionEndStep p data locale s).2 = [OutEvent.onType t]) ∧
    (compositionEndStep p data locale s).1.isDoingComposition = false := by
  unfold compositionEndStep
  by_cases h1 : (p.isEdgeOrIE && decide (locale = "ja")) = true <;>
    by_cases h2 : (p.isEdgeOrIE || p.isChrome) = true <;>
    simp [h1, h2, h]

theorem C10_witness :
    (∃ t, (compositionEndStep plainPlatform [119] "en" baseState).2 = [OutEvent.onType t]) ∧
    (compositionEndStep plainPlatform [119] "en" baseState).1.isDoingComposition = false :=
  C10_composition_end_while_idle plainPlatform [119] "en" baseState (by decide)

/-- Claim C8: the clipboard read prefers the structured event clipboard data,
falls back to the legacy whole-document clipboard object, and fails with the
clipboard-unavailable error exactly when neither capability exists; under the
precondition that `canUseTextData` returned true, the error branch is
unreachable. -/
theorem C8_getTextData_spec (e : ClipEvent) :
    ((∃ err, getTextData e = Except.error err) ↔ canUseTextData e = false) ∧
    (canUseTextData e = true → ∃ t, getTextData e = Except.ok t) ∧
    (∀ t, e.clipboardData = some t → getTextData e = Except.ok t) ∧
    (e.clipboardData = none → ∀ t, e.windowClipboardData = some t →
      getTextData e = Except.ok t) := by
  rcases e with ⟨cd, wd⟩
  cases cd <;> cases wd <;> simp [getTextData, canUseTextData]
  exact ⟨ClipboardError.unavailable, trivial⟩

theorem C8_witness :
    (∃ t, getTextData { clipboardData := none, windowClipboardData := some [55] } =
      Except.ok t) ∧
    getTextData { clipboardData := some [42], windowClipboardData := some [55] } =
      Except.ok [42] ∧
    getTextData { clipboardData := none, windowClipboardData := some [55] } =
      Except.ok [55] := by
  refine ⟨(C8_getTextData_spec { clipboardData := none, windowClipboardData := some [55] }).2.1
      (by decide),
    (C8_getTextData_spec { clipboardData := some [42], windowClipboardData := some [55] }).2.2.1
      [42] (by decide),
    (C8_getTextData_spec { clipboardData := none, windowClipboardData := some [55] }).2.2.2
      (by decide) [55] (by decide)⟩

/-- Claim C7 (as stated) requires the HTML payload whenever the platform is
not Edge/IE, the force flag is unset, and the plain text does not *exceed*
65536 code units; the code instead omits it already at exactly 65536 (the
gate is `length < 65536`).  At a plain text of exactly 65536 units, none of
the claim's omission conditions hold, yet the code omits the payload. -/
theorem C7_counterexample :
    plainPlatform.isEdgeOrIE = false ∧
    ¬ (65536 < (List.replicate 65536 97 : Str).length) ∧
    copyHTMLPayload plainPlatform
      { plainText := List.replicate 65536 97, htmlText := [104] } false = none := by
  refine ⟨rfl, ?_, ?_⟩
  · rw [List.length_replicate]
    omega
  · unfold copyHTMLPayload
    simp only [plainPlatform, List.length_replicate]
    norm_num

/-- Claim C7 (amended): on every copy or cut with structured clipboard
capability, the write carries the host's plain text together with the gated
HTML payload, and that payload is omitted exactly when the platform is Edge/IE
(synchronous clipboard writes) or when `plainText.length` is at least 65536
(rather than strictly greater than 65536) while the
`forceCopyWithSyntaxHighlighting` policy flag is unset; otherwise it is
included. -/
theorem C7_rich_text_gate (p : Platform) (host : HostCopy) (force : Bool)
    (e : ClipEvent) (s : EngineState) (h : e.clipboardData.isSome = true) :
    (ensureClipboardGetsEditorSelection p host force e s).2 =
      [OutEvent.clipboardWrite
        (ClipWrite.structured host.plainText (copyHTMLPayload p host force))] ∧
    (copyHTMLPayload p host force = none ↔
      (p.isEdgeOrIE = true ∨ (65536 ≤ host.plainText.length ∧ force = false))) ∧
    (copyHTMLPayload p host force = some host.htmlText ↔
      (p.isEdgeOrIE = false ∧ (host.plainText.length < 65536 ∨ force = true))) := by
  obtain ⟨t, ht⟩ := Option.isSome_iff_exists.mp h
  refine ⟨?_, ?_, ?_⟩
  · unfold ensureClipboardGetsEditorSelection
    simp [canUseTextData, setTextData, ht]
  · unfold copyHTMLPayload
    cases hp : p.isEdgeOrIE <;> cases force <;>
      by_cases hl : host.plainText.length < 65536 <;> simp [hp, hl]
    all_goals omega
  · unfold copyHTMLPayload
    cases hp : p.isEdgeOrIE <;> cases force <;>
      by_cases hl : host.plainText.length < 65536 <;> simp [hp, hl]

theorem C7_witness :
    (ensureClipboardGetsEditorSelection edgePlatform { plainText := [97], htmlText := [104] }
        false { clipboardData := some [], windowClipboardData := none } baseState).2 =
      [OutEvent.clipboardWrite (ClipWrite.structured [97]
        (copyHTMLPayload edgePlatform { plainText := [97], htmlText := [104] } false))] ∧
    (copyHTMLPayload edgePlatform { plainText := [97], htmlText := [104] } false = none ↔
      (edgePlatform.isEdgeOrIE = true ∨
        (65536 ≤ ([97] : Str).length ∧ false = false))) ∧
    (copyHTMLPayload edgePlatform { plainText := [97], htmlText := [104] } false =
        some ({ plainText := [97], htmlText := [104] } : HostCopy).htmlText ↔
      (edgePlatform.isEdgeOrIE = false ∧ (([97] : Str).length < 65536 ∨ false = true))) :=
  C7_rich_text_gate edgePlatform { plainText := [97], htmlText := [104] } false
    { clipboardData := some [], windowClipboardData := none } baseState (by decide)

/-- Claim C4: each cut event synchronously populates the clipboard from the
host's current selection, and two cut signals arriving before the deferred
run-once scheduler fires produce exactly one `onCut` emission: the trace of
cut, cut, scheduler-fire is two clipboard writes carrying the host's plain
text followed by a single `onCut`. -/
theorem C4_cut_coalesced (p : Platform) (host : HostCopy) (force : Bool)
    (e : ClipEvent) (s : EngineState) (h : canUseTextData e = true) :
    ∃ w1 w2 : ClipWrite,
      (cutCutFire p host force e s).2 =
        [OutEvent.clipboardWrite w1, OutEvent.clipboardWrite w2, OutEvent.onCut] ∧
      w1.plain = host.plainText ∧ w2.plain = host.plainText ∧
      (cutCutFire p host force e s).1.cutScheduled = false ∧
      (cutCutFire p host force e s).2.countP
        (fun ev => decide (ev = OutEvent.onCut)) = 1 := by
  rcases e with ⟨cd, wd⟩
  cases cd with
  | some t =>
    refine ⟨ClipWrite.structured host.plainText (copyHTMLPayload p host force),
      ClipWrite.structured host.plainText (copyHTMLPayload p host force),
      ?_, rfl, rfl, ?_, ?_⟩ <;>
      simp [cutCutFire, cutStep, ensureClipboardGetsEditorSelection, canUseTextData,
        setTextData, cutSchedulerFire, List.countP_cons]
  | none =>
    cases wd with
    | some t =>
      refine ⟨ClipWrite.legacy host.plainText, ClipWrite.legacy host.plainText,
        ?_, rfl, rfl, ?_, ?_⟩ <;>
        simp [cutCutFire, cutStep, ensureClipboardGetsEditorSelection, canUseTextData,
          setTextData, cutSchedulerFire, List.countP_cons]
    | none => simp [canUseTextData] at h

theorem C4_witness :
    ∃ w1 w2 : ClipWrite,
      (cutCutFire plainPlatform { plainText := [104], htmlText := [105] } false
        { clipboardData := some [], windowClipboardData := none } baseState).2 =
        [OutEvent.clipboardWrite w1, OutEvent.clipboardWrite w2, OutEvent.onCut] ∧
      w1.plain = [104] ∧ w2.plain = [104] ∧
      (cutCutFire plainPlatform { plainText := [104], htmlText := [105] } false
        { clipboardData := some [], windowClipboardData := none } baseState).1.cutScheduled =
        false ∧
      (cutCutFire plainPlatform { plainText := [104], htmlText := [105] } false
        { clipboardData := some [], windowClipboardData := none } baseState).2.countP
        (fun ev => decide (ev = OutEvent.onCut)) = 1 :=
  C4_cut_coalesced plainPlatform { plainText := [104], htmlText := [105] } false
    { clipboardData := some [], windowClipboardData := none } baseState (by decide)

/-- Claim C3: on a paste event with clipboard capability, `onPaste` is emitted
synchronously within the paste handler with the read text — except that an
empty text emits nothing; on the fallback path no `onPaste` is emitted during
the paste event, the widget's displayed value is cleared when the widget
selection is non-empty, and the pending command is set to `paste`; a
subsequent raw input reconciliation then performs the deferred paste emission
and resets the pending command to `type`. -/
theorem C3_paste_paths (e : ClipEvent) (s : EngineState) :
    (∀ t, getTextData e = Except.ok t → t ≠ [] → pasteStep e s = (s, [OutEvent.onPaste t])) ∧
    (getTextData e = Except.ok [] → pasteStep e s = (s, [])) ∧
    (canUseTextData e = false →
      (pasteStep e s).2 = [] ∧
      (pasteStep e s).1.nextCommand = ReadFromTextArea.paste ∧
      (s.widget.selectionStart ≠ s.widget.selectionEnd →
        (pasteStep e s).1.widget.value = []) ∧
      (s.widget.selectionStart = s.widget.selectionEnd →
        (pasteStep e s).1 = { s with nextCommand := ReadFromTextArea.paste })) ∧
    (∀ p s2, s2.nextCommand = ReadFromTextArea.paste → s2.isDoingComposition = false →
      ¬ (((deduceInput s2.textAreaState.value s2.widget.value).replaceCharCnt = 0 ∧
          (deduceInput s2.textAreaState.value s2.widget.value).text.length = 1) ∧
          isHighSurrogate
            ((deduceInput s2.textAreaState.value s2.widget.value).text.headD 0) = true) →
      (inputStep p s2).2 =
        executePaste (deduceInput s2.textAreaState.value s2.widget.value).text ∧
      (inputStep p s2).1.nextCommand = ReadFromTextArea.type) := by
  refine ⟨?_, ?_, ?_, ?_⟩
  · intro t ht hne
    rcases e with ⟨cd, wd⟩
    cases cd <;> cases wd <;> simp [getTextData] at ht <;>
      simp [pasteStep, canUseTextData, getTextData, executePaste, ht, hne]
  · intro ht
    rcases e with ⟨cd, wd⟩
    cases cd <;> cases wd <;> simp [getTextData] at ht <;>
      simp [pasteStep, canUseTextData, getTextData, executePaste, ht]
  · intro h
    rcases e with ⟨cd, wd⟩
    cases cd <;> cases wd <;> simp [canUseTextData] at h
    by_cases hsel : s.widget.selectionStart = s.widget.selectionEnd <;>
      cases hfoc : s.hasFocus <;>
      simp [pasteStep, canUseTextData, hsel, hfoc, setTextAreaState, TextAreaState.toEmpty,
        TextAreaState.resetSelection, TextAreaState.applyToTextArea]
  · intro p s2 h1 h2 h3
    simp only [List.headD_eq_head?_getD] at h3
    unfold inputStep
    simp [h2, TextAreaState.fromTextArea, h1, h3]

theorem C3_witness :
    pasteStep { clipboardData := some [104, 105], windowClipboardData := none } baseState =
      (baseState, [OutEvent.onPaste [104, 105]]) ∧
    pasteStep { clipboardData := some [], windowClipboardData := none } baseState =
      (baseState, []) ∧
    ((pasteStep { clipboardData := none, windowClipboardData := none } baseState).2 = [] ∧
      (pasteStep { clipboardData := none, windowClipboardData := none }
        baseState).1.nextCommand = ReadFromTextArea.paste ∧
      (baseState.widget.selectionStart ≠ baseState.widget.selectionEnd →
        (pasteStep { clipboardData := none, windowClipboardData := none }
          baseState).1.widget.value = []) ∧
      (baseState.widget.selectionStart = baseState.widget.selectionEnd →
        (pasteStep { clipboardData := none, windowClipboardData := none } baseState).1 =
          { baseState with nextCommand := ReadFromTextArea.paste })) ∧
    ((inputStep plainPlatform { baseState with
        nextCommand := ReadFromTextArea.paste
        widget := { baseWidget with value := [104] } }).2 =
      executePaste (deduceInput baseState.textAreaState.value [104]).text ∧
      (inputStep plainPlatform { baseState with
        nextCommand := ReadFromTextArea.paste
        widget := { baseWidget with value := [104] } }).1.nextCommand =
        ReadFromTextArea.type) := by
  refine ⟨?_, ?_, ?_, ?_⟩
  · exact (C3_paste_paths { clipboardData := some [104, 105], windowClipboardData := none }
      baseState).1 [104, 105] (by rfl) (by decide)
  · exact (C3_paste_paths { clipboardData := some [], windowClipboardData := none }
      baseState).2.1 (by rfl)
  · exact (C3_paste_paths { clipboardData := none, windowClipboardData := none }
      baseState).2.2.1 (by decide)
  · exact (C3_paste_paths { clipboardData := none, windowClipboardData := none }
      baseState).2.2.2 plainPlatform
      { baseState with
        nextCommand := ReadFromTextArea.paste
        widget := { baseWidget with value := [104] } }
      (by decide) (by decide) (by decide)

end TextArea
